import Mathlib

/-!
Shallow embedding of the Curve DEX limit-order agent.

The model follows `src/include/limit_order.h` (the `LimitOrder` struct and its
member functions) and `src/src/curve_dex_limit_order_agent.cpp` (the
`LimitOrderEngine` with its four time-in-force strategies).  C++ `double`
fields are modelled as rationals, `uint64_t` amounts as naturals (with the
wrap-around of unsigned subtraction made explicit where the source subtracts),
timestamps as naturals, and the external RPC collaborators (`get_dy` quoting
and `executeSwap` settlement) as an explicit environment of fallible
functions; a C++ exception is an `Except.error` carrying the message that
`e.what()` would produce.
-/

/-- Time-in-Force policy enumeration, from `limit_order.h`. -/
inductive TimeInForce where
  | GTC
  | GTT
  | IOC
  | FOK
deriving DecidableEq, Repr

/-- Order status enumeration, from `limit_order.h`. -/
inductive OrderStatus where
  | PENDING
  | ACTIVE
  | PARTIALLY_FILLED
  | FILLED
  | CANCELED
  | EXPIRED
  | FAILED
deriving DecidableEq, Repr

/-- Unsigned 64-bit subtraction as the C++ expression `a - b` on `uint64_t`
computes it (two's-complement wrap-around). -/
def sub64 (a b : ℕ) : ℕ := (((a : ℤ) - (b : ℤ)) % (2 : ℤ) ^ 64).toNat

/-- The `LimitOrder` struct of `limit_order.h`: immutable order terms plus
mutable execution state.  `chrono` time points are abstract natural-number
instants; a GTT default expiry of one hour is `3600` such instants. -/
structure LimitOrder where
  order_id : String
  created_at : ℕ
  input_token_address : String
  output_token_address : String
  input_amount : ℕ
  min_output_amount : ℕ
  pool_address : String
  input_token_index : ℤ
  output_token_index : ℤ
  limit_price : ℚ
  slippage_tolerance : ℚ
  tif_policy : TimeInForce
  expiry_time : ℕ
  user_address : String
  private_key : String
  status : OrderStatus
  filled_amount : ℕ
  received_amount : ℕ
  transaction_hash : String
  failure_reason : String
  last_price_check : ℕ
  last_quoted_output : ℕ
  price_check_count : ℤ
deriving DecidableEq, Repr

/-- The `LimitOrder` constructor: records the terms, starts in `PENDING` with
nothing filled, computes `min_output_amount` by truncating
`input_amount * limit_price` (floor for non-negative values), and gives GTT
orders a default expiry one hour after creation.  `now` stands for the
`std::chrono::system_clock::now()` call; fields the constructor leaves
default-initialised are the empty string, zero index, zero instant. -/
def mkLimitOrder (id input_token output_token : String) (input_amt : ℕ)
    (limit_rate slippage : ℚ) (tif : TimeInForce)
    (user_addr priv_key : String) (now : ℕ) : LimitOrder :=
  { order_id := id
    created_at := now
    input_token_address := input_token
    output_token_address := output_token
    input_amount := input_amt
    min_output_amount := (⌊(input_amt : ℚ) * limit_rate⌋).toNat
    pool_address := ""
    input_token_index := 0
    output_token_index := 0
    limit_price := limit_rate
    slippage_tolerance := slippage
    tif_policy := tif
    expiry_time := if tif = TimeInForce.GTT then now + 3600 else 0
    user_address := user_addr
    private_key := priv_key
    status := OrderStatus.PENDING
    filled_amount := 0
    received_amount := 0
    transaction_hash := ""
    failure_reason := ""
    last_price_check := 0
    last_quoted_output := 0
    price_check_count := 0 }

namespace LimitOrder

/-- `isExpired`: only GTT orders expire, once `now() >= expiry_time`. -/
def isExpired (o : LimitOrder) (now : ℕ) : Bool :=
  if o.tif_policy ≠ TimeInForce.GTT then false
  else decide (o.expiry_time ≤ now)

/-- `isExecutable`: the order is `ACTIVE` and not expired. -/
def isExecutable (o : LimitOrder) (now : ℕ) : Bool :=
  decide (o.status = OrderStatus.ACTIVE) && !(o.isExpired now)

/-- `getFillPercentage`: filled over input, as a percentage; `0.0` when the
input amount is zero. -/
def getFillPercentage (o : LimitOrder) : ℚ :=
  if o.input_amount = 0 then 0
  else (o.filled_amount : ℚ) / (o.input_amount : ℚ) * 100

/-- `isPriceMet`: false on zero input amount, otherwise compares the rate
`current_output / input_amount` against the limit price. -/
def isPriceMet (o : LimitOrder) (current_output : ℕ) : Bool :=
  if o.input_amount = 0 then false
  else decide ((current_output : ℚ) / (o.input_amount : ℚ) ≥ o.limit_price)

/-- `isPriceMetForAmount`: the same comparison with a caller-supplied
denominator. -/
def isPriceMetForAmount (o : LimitOrder) (current_output check_amount : ℕ) : Bool :=
  if check_amount = 0 then false
  else decide ((current_output : ℚ) / (check_amount : ℚ) ≥ o.limit_price)

/-- `getMaxFillableAmount`: zero on zero input, zero when nothing remains,
the whole remaining amount when the price is met, and zero otherwise.  The
remaining amount is the unsigned subtraction `input_amount - filled_amount`. -/
def getMaxFillableAmount (o : LimitOrder) (current_output : ℕ) : ℕ :=
  if o.input_amount = 0 then 0
  else
    let remaining_amount := sub64 o.input_amount o.filled_amount
    if remaining_amount = 0 then 0
    else if o.isPriceMet current_output then remaining_amount
    else 0

/-- `getMinOutputWithSlippage`: truncates `current_market_output * (1 - slippage_tolerance)`. -/
def getMinOutputWithSlippage (o : LimitOrder) (current_market_output : ℕ) : ℕ :=
  (⌊(current_market_output : ℚ) * (1 - o.slippage_tolerance)⌋).toNat

/-- `updateStatus`: overwrites the status; a non-empty reason overwrites the
failure reason, an empty one leaves it alone. -/
def updateStatus (o : LimitOrder) (new_status : OrderStatus) (reason : String) : LimitOrder :=
  { o with
    status := new_status
    failure_reason := if reason = "" then o.failure_reason else reason }

/-- `recordPriceCheck`: stamps the check time, stores the quote, bumps the
counter. -/
def recordPriceCheck (o : LimitOrder) (now : ℕ) (quoted_output : ℕ) : LimitOrder :=
  { o with
    last_price_check := now
    last_quoted_output := quoted_output
    price_check_count := o.price_check_count + 1 }

/-- `setExpiryTime`: only effective on GTT orders. -/
def setExpiryTime (o : LimitOrder) (expiry : ℕ) : LimitOrder :=
  if o.tif_policy = TimeInForce.GTT then { o with expiry_time := expiry } else o

end LimitOrder

/-- Terminal statuses of the order lifecycle. -/
def OrderStatus.isTerminal : OrderStatus → Bool
  | OrderStatus.FILLED => true
  | OrderStatus.PARTIALLY_FILLED => true
  | OrderStatus.CANCELED => true
  | OrderStatus.EXPIRED => true
  | OrderStatus.FAILED => true
  | _ => false

/-- The world outside the engine, per `curve_dex_limit_order_agent.cpp`:
`timeAt i` is the clock reading at loop iteration `i`, `quoteAt i dx` the
outcome of `pool.get_dy` for amount `dx` at iteration `i`, and `swapAt i`
the outcome of `pool.executeSwap` at iteration `i` (a transaction hash on
success).  `Except.error` stands for a thrown C++ exception with its
`what()` message.  `liquidityCheckEnabled` reflects the
`SKIP_LIQUIDITY_CHECK` environment variable read by the FOK strategy. -/
structure Env where
  timeAt : ℕ → ℕ
  quoteAt : ℕ → ℕ → Except String ℕ
  swapAt : ℕ → Except String String
  liquidityCheckEnabled : Bool

/-- A settlement submission: the input amount and the minimum output passed
to `executeSwap`. -/
abbrev Settlement := ℕ × ℕ

/-- One run of `LimitOrderEngine::executeGTC`'s while loop, carried by fuel.
The loop continues while the order is executable and fewer than
`max_checks = 10` price checks have completed; a quote meeting the limit
settles the full input amount and fills the order; a thrown quote or swap
exception is caught and the loop retries without bumping `check_count`;
otherwise the counter advances.  On normal exit with the counter exhausted
the order is canceled with reason "Demo limit reached". -/
def executeGTCAux (env : Env) (o : LimitOrder) (check_count i fuel : ℕ) :
    LimitOrder × List Settlement :=
  match fuel with
  | 0 => (o, [])
  | fuel' + 1 =>
    if o.isExecutable (env.timeAt i) && decide (check_count < 10) then
      match env.quoteAt i o.input_amount with
      | Except.error _ => executeGTCAux env o check_count (i + 1) fuel'
      | Except.ok current_output =>
        let o1 := o.recordPriceCheck (env.timeAt i) current_output
        if o1.isPriceMet current_output then
          match env.swapAt i with
          | Except.error _ => executeGTCAux env o1 check_count (i + 1) fuel'
          | Except.ok tx_hash =>
            let min_output := o1.getMinOutputWithSlippage current_output
            ({ o1 with
                transaction_hash := tx_hash
                filled_amount := o1.input_amount
                received_amount := current_output
                status := OrderStatus.FILLED },
             [(o1.input_amount, min_output)])
        else executeGTCAux env o1 (check_count + 1) (i + 1) fuel'
    else
      (if 10 ≤ check_count then o.updateStatus OrderStatus.CANCELED "Demo limit reached"
       else o, [])

/-- `LimitOrderEngine::executeGTC` started with a fresh check counter. -/
def executeGTC (env : Env) (o : LimitOrder) (fuel : ℕ) : LimitOrder × List Settlement :=
  executeGTCAux env o 0 0 fuel

/-- One run of `LimitOrderEngine::executeGTT`'s while loop, carried by fuel.
The loop continues while the order is executable and not expired; a quote
meeting the limit settles the full input amount, records the transaction
hash and the filled amount and marks the order `FILLED` (the source does not
write `received_amount` on this path); exceptions are caught and the loop
retries.  On exit, an expired order becomes `EXPIRED` with reason
"Order expired". -/
def executeGTTAux (env : Env) (o : LimitOrder) (i fuel : ℕ) :
    LimitOrder × List Settlement :=
  match fuel with
  | 0 => (o, [])
  | fuel' + 1 =>
    if o.isExecutable (env.timeAt i) && !(o.isExpired (env.timeAt i)) then
      match env.quoteAt i o.input_amount with
      | Except.error _ => executeGTTAux env o (i + 1) fuel'
      | Except.ok current_output =>
        let o1 := o.recordPriceCheck (env.timeAt i) current_output
        if o1.isPriceMet current_output then
          match env.swapAt i with
          | Except.error _ => executeGTTAux env o1 (i + 1) fuel'
          | Except.ok tx_hash =>
            let min_output := o1.getMinOutputWithSlippage current_output
            ({ o1 with
                transaction_hash := tx_hash
                filled_amount := o1.input_amount
                status := OrderStatus.FILLED },
             [(o1.input_amount, min_output)])
        else executeGTTAux env o1 (i + 1) fuel'
    else
      (if o.isExpired (env.timeAt i) then o.updateStatus OrderStatus.EXPIRED "Order expired"
       else o, [])

/-- `LimitOrderEngine::executeGTT`. -/
def executeGTT (env : Env) (o : LimitOrder) (fuel : ℕ) : LimitOrder × List Settlement :=
  executeGTTAux env o 0 fuel

/-- `LimitOrderEngine::executeIOC`: one quote for the full input amount; if
the price is met, settle the full amount and mark `FILLED`; otherwise, when
`getMaxFillableAmount` is positive, quote that partial size, settle it and
mark `PARTIALLY_FILLED`; otherwise cancel with "Price not met for any
execution".  Any exception inside the attempt marks the order `FAILED` with
the exception message. -/
def executeIOC (env : Env) (o : LimitOrder) : LimitOrder × List Settlement :=
  match env.quoteAt 0 o.input_amount with
  | Except.error e => (o.updateStatus OrderStatus.FAILED e, [])
  | Except.ok current_output =>
    let o1 := o.recordPriceCheck (env.timeAt 0) current_output
    if o1.isPriceMet current_output then
      match env.swapAt 0 with
      | Except.error e => (o1.updateStatus OrderStatus.FAILED e, [])
      | Except.ok tx_hash =>
        let min_output := o1.getMinOutputWithSlippage current_output
        ({ o1 with
            transaction_hash := tx_hash
            filled_amount := o1.input_amount
            received_amount := current_output
            status := OrderStatus.FILLED },
         [(o1.input_amount, min_output)])
    else
      let max_fillable := o1.getMaxFillableAmount current_output
      if 0 < max_fillable then
        match env.quoteAt 0 max_fillable with
        | Except.error e => (o1.updateStatus OrderStatus.FAILED e, [])
        | Except.ok partial_output =>
          match env.swapAt 0 with
          | Except.error e => (o1.updateStatus OrderStatus.FAILED e, [])
          | Except.ok tx_hash =>
            let min_partial_output := o1.getMinOutputWithSlippage partial_output
            (({ o1 with
                  transaction_hash := tx_hash
                  filled_amount := max_fillable
                  received_amount := partial_output }).updateStatus
                OrderStatus.PARTIALLY_FILLED "Partial fill executed",
             [(max_fillable, min_partial_output)])
      else
        (o1.updateStatus OrderStatus.CANCELED "Price not met for any execution", [])

/-- The settlement tail of `LimitOrderEngine::executeFOK`, reached when the
price check (and, when enabled, the liquidity check) passed. -/
def fokSettle (env : Env) (o1 : LimitOrder) (current_output : ℕ) :
    LimitOrder × List Settlement :=
  match env.swapAt 0 with
  | Except.error e => (o1.updateStatus OrderStatus.FAILED e, [])
  | Except.ok tx_hash =>
    let min_output := o1.getMinOutputWithSlippage current_output
    ({ o1 with
        transaction_hash := tx_hash
        filled_amount := o1.input_amount
        received_amount := current_output
        status := OrderStatus.FILLED },
     [(o1.input_amount, min_output)])

/-- `LimitOrderEngine::executeFOK`: quote the full input amount; a missed
price cancels the order with "FOK: Price not met, order killed"; the
optional liquidity probe quotes a 1% larger amount and cancels on a zero
result, while a probe exception is inconclusive and execution proceeds;
otherwise the full amount is settled and the order is `FILLED`.  Any
exception escaping the attempt marks the order `FAILED`. -/
def executeFOK (env : Env) (o : LimitOrder) : LimitOrder × List Settlement :=
  match env.quoteAt 0 o.input_amount with
  | Except.error e => (o.updateStatus OrderStatus.FAILED e, [])
  | Except.ok current_output =>
    let o1 := o.recordPriceCheck (env.timeAt 0) current_output
    if !(o1.isPriceMet current_output) then
      (o1.updateStatus OrderStatus.CANCELED "FOK: Price not met, order killed", [])
    else if env.liquidityCheckEnabled then
      let test_amount := (⌊(o1.input_amount : ℚ) * (101 / 100)⌋).toNat
      match env.quoteAt 0 test_amount with
      | Except.error _ => fokSettle env o1 current_output
      | Except.ok test_output =>
        if 0 < test_output then fokSettle env o1 current_output
        else
          (o1.updateStatus OrderStatus.CANCELED
            "FOK: Insufficient liquidity for full order", [])
    else fokSettle env o1 current_output

/-- `LimitOrderEngine::addOrder`: set the order `ACTIVE` and append it to the
engine's order list, unconditionally. -/
def addOrder (orders : List LimitOrder) (o : LimitOrder) : List LimitOrder :=
  orders ++ [o.updateStatus OrderStatus.ACTIVE ""]

/-- The per-order body of `LimitOrderEngine::processOrders`: skip any order
that is not executable, otherwise dispatch on its TIF policy. -/
def processOrder (env : Env) (o : LimitOrder) (fuel : ℕ) : LimitOrder × List Settlement :=
  if !(o.isExecutable (env.timeAt 0)) then (o, [])
  else
    match o.tif_policy with
    | TimeInForce.GTC => executeGTC env o fuel
    | TimeInForce.GTT => executeGTT env o fuel
    | TimeInForce.IOC => executeIOC env o
    | TimeInForce.FOK => executeFOK env o

/-- `needle` occurs as a contiguous substring of `hay`. -/
def mentions (needle hay : String) : Prop :=
  ∃ pre post : List Char, hay.data = pre ++ needle.data ++ post

/-- Recording a price check does not change the fields `isPriceMet` reads. -/
theorem isPriceMet_recordPriceCheck (o : LimitOrder) (t q q' : ℕ) :
    (o.recordPriceCheck t q').isPriceMet q = o.isPriceMet q := rfl

/-- C5: `isPriceMet(order, q)` is true iff `q / input_amount >= limit_price`
(for nonzero input amount), the boundary `q = input_amount * limit_price` is
inclusive, and a zero input amount always yields false. -/
theorem isPriceMet_spec (o : LimitOrder) (q : ℕ) :
    (o.input_amount ≠ 0 →
      (o.isPriceMet q = true ↔ o.limit_price ≤ (q : ℚ) / (o.input_amount : ℚ)))
    ∧ (o.input_amount = 0 → o.isPriceMet q = false)
    ∧ (o.input_amount ≠ 0 → (q : ℚ) = (o.input_amount : ℚ) * o.limit_price →
        o.isPriceMet q = true) := by
  refine ⟨fun h => ?_, fun h => ?_, fun h hq => ?_⟩
  · simp [LimitOrder.isPriceMet, h, ge_iff_le]
  · simp [LimitOrder.isPriceMet, h]
  · have hrate : (q : ℚ) / (o.input_amount : ℚ) = o.limit_price := by
      rw [hq]
      exact mul_div_cancel_left₀ _ (Nat.cast_ne_zero.mpr h)
    simp [LimitOrder.isPriceMet, h, ge_iff_le, hrate]

/-- Concrete instance of `isPriceMet_spec`: a quote of exactly
`input_amount * limit_price` is accepted. -/
theorem isPriceMet_spec_witness :
    (mkLimitOrder "w5" "USDC" "DAI" 100 (3 / 2) 0 TimeInForce.GTC "u" "k" 0).input_amount ≠ 0
    ∧ (mkLimitOrder "w5" "USDC" "DAI" 100 (3 / 2) 0 TimeInForce.GTC "u" "k" 0).isPriceMet 150 = true :=
  ⟨by decide,
   (isPriceMet_spec (mkLimitOrder "w5" "USDC" "DAI" 100 (3 / 2) 0 TimeInForce.GTC "u" "k" 0)
      150).2.2 (by decide) (by norm_num [mkLimitOrder])⟩

/-- C7: `getMinOutputWithSlippage` is the floor of
`q * (1 - slippage_tolerance)` whenever the tolerance does not exceed one
(the spec constrains it to `[0,1)`), and a zero tolerance returns `q`. -/
theorem getMinOutputWithSlippage_spec (o : LimitOrder) (q : ℕ) :
    (o.slippage_tolerance ≤ 1 →
      ((o.getMinOutputWithSlippage q : ℤ) = ⌊(q : ℚ) * (1 - o.slippage_tolerance)⌋))
    ∧ (o.slippage_tolerance = 0 → o.getMinOutputWithSlippage q = q) := by
  constructor
  · intro h
    have hnn : (0 : ℚ) ≤ (q : ℚ) * (1 - o.slippage_tolerance) :=
      mul_nonneg (Nat.cast_nonneg q) (by linarith)
    exact Int.toNat_of_nonneg (Int.floor_nonneg.mpr hnn)
  · intro h
    simp [LimitOrder.getMinOutputWithSlippage, h, Int.floor_natCast]

/-- Concrete instance of `getMinOutputWithSlippage_spec` at tolerance `1/200`
and at tolerance `0`. -/
theorem getMinOutputWithSlippage_spec_witness :
    ((mkLimitOrder "w7" "USDC" "DAI" 100 1 (1 / 200) TimeInForce.GTC "u" "k" 0).slippage_tolerance ≤ 1
      ∧ (((mkLimitOrder "w7" "USDC" "DAI" 100 1 (1 / 200) TimeInForce.GTC "u" "k" 0).getMinOutputWithSlippage 1000 : ℤ)
          = ⌊(1000 : ℚ) * (1 - (mkLimitOrder "w7" "USDC" "DAI" 100 1 (1 / 200) TimeInForce.GTC "u" "k" 0).slippage_tolerance)⌋))
    ∧ ((mkLimitOrder "w7b" "USDC" "DAI" 100 1 0 TimeInForce.GTC "u" "k" 0).slippage_tolerance = 0
      ∧ (mkLimitOrder "w7b" "USDC" "DAI" 100 1 0 TimeInForce.GTC "u" "k" 0).getMinOutputWithSlippage 1000 = 1000) :=
  ⟨⟨by norm_num [mkLimitOrder],
    (getMinOutputWithSlippage_spec (mkLimitOrder "w7" "USDC" "DAI" 100 1 (1 / 200) TimeInForce.GTC "u" "k" 0)
       1000).1 (by norm_num [mkLimitOrder])⟩,
   ⟨by norm_num [mkLimitOrder],
    (getMinOutputWithSlippage_spec (mkLimitOrder "w7b" "USDC" "DAI" 100 1 0 TimeInForce.GTC "u" "k" 0)
       1000).2 (by norm_num [mkLimitOrder])⟩⟩

/-- C9: `getFillPercentage` is guarded against a zero input amount and
returns `0` there. -/
theorem getFillPercentage_zero_input (o : LimitOrder) (h : o.input_amount = 0) :
    o.getFillPercentage = 0 := by
  simp [LimitOrder.getFillPercentage, h]

/-- Concrete instance of `getFillPercentage_zero_input` on a zero-amount
order. -/
theorem getFillPercentage_zero_input_witness :
    (mkLimitOrder "w9" "USDC" "DAI" 0 1 0 TimeInForce.IOC "u" "k" 0).input_amount = 0
    ∧ (mkLimitOrder "w9" "USDC" "DAI" 0 1 0 TimeInForce.IOC "u" "k" 0).getFillPercentage = 0 :=
  ⟨by decide,
   getFillPercentage_zero_input (mkLimitOrder "w9" "USDC" "DAI" 0 1 0 TimeInForce.IOC "u" "k" 0)
     (by decide)⟩

/-- C10: `updateStatus` with an empty reason keeps the failure reason, and no
call to it changes any field other than `status` and `failure_reason`. -/
theorem updateStatus_frame (o : LimitOrder) (s : OrderStatus) :
    (o.updateStatus s "").failure_reason = o.failure_reason
    ∧ ∀ r : String,
        (o.updateStatus s r).order_id = o.order_id
        ∧ (o.updateStatus s r).created_at = o.created_at
        ∧ (o.updateStatus s r).input_token_address = o.input_token_address
        ∧ (o.updateStatus s r).output_token_address = o.output_token_address
        ∧ (o.updateStatus s r).input_amount = o.input_amount
        ∧ (o.updateStatus s r).min_output_amount = o.min_output_amount
        ∧ (o.updateStatus s r).pool_address = o.pool_address
        ∧ (o.updateStatus s r).input_token_index = o.input_token_index
        ∧ (o.updateStatus s r).output_token_index = o.output_token_index
        ∧ (o.updateStatus s r).limit_price = o.limit_price
        ∧ (o.updateStatus s r).slippage_tolerance = o.slippage_tolerance
        ∧ (o.updateStatus s r).tif_policy = o.tif_policy
        ∧ (o.updateStatus s r).expiry_time = o.expiry_time
        ∧ (o.updateStatus s r).user_address = o.user_address
        ∧ (o.updateStatus s r).private_key = o.private_key
        ∧ (o.updateStatus s r).filled_amount = o.filled_amount
        ∧ (o.updateStatus s r).received_amount = o.received_amount
        ∧ (o.updateStatus s r).transaction_hash = o.transaction_hash
        ∧ (o.updateStatus s r).last_price_check = o.last_price_check
        ∧ (o.updateStatus s r).last_quoted_output = o.last_quoted_output
        ∧ (o.updateStatus s r).price_check_count = o.price_check_count :=
  ⟨rfl, fun _ =>
    ⟨rfl, rfl, rfl, rfl, rfl, rfl, rfl, rfl, rfl, rfl, rfl, rfl, rfl, rfl, rfl,
     rfl, rfl, rfl, rfl, rfl, rfl⟩⟩

/-- When the price is not met, `getMaxFillableAmount` returns zero on every
branch. -/
theorem getMaxFillableAmount_eq_zero_of_not_priceMet (o : LimitOrder) (q : ℕ)
    (h : o.isPriceMet q = false) : o.getMaxFillableAmount q = 0 := by
  unfold LimitOrder.getMaxFillableAmount
  simp only [h]
  split
  · rfl
  · split <;> simp

/-- C1: whenever `isPriceMet` is false `getMaxFillableAmount` is zero, so the
IOC partial-fill branch is dead and `executeIOC` never leaves an order
`PARTIALLY_FILLED`. -/
theorem maxFillable_zero_and_ioc_never_partial :
    (∀ (o : LimitOrder) (q : ℕ), o.isPriceMet q = false → o.getMaxFillableAmount q = 0)
    ∧ ∀ (env : Env) (o : LimitOrder),
        (executeIOC env o).1.status ≠ OrderStatus.PARTIALLY_FILLED := by
  refine ⟨getMaxFillableAmount_eq_zero_of_not_priceMet, fun env o => ?_⟩
  unfold executeIOC
  cases hq : env.quoteAt 0 o.input_amount with
  | error e => simp [LimitOrder.updateStatus]
  | ok q =>
    by_cases hp : (o.recordPriceCheck (env.timeAt 0) q).isPriceMet q = true
    · simp only [hp, if_true]
      cases env.swapAt 0 with
      | error e => simp [LimitOrder.updateStatus]
      | ok tx => simp
    · have hp' : (o.recordPriceCheck (env.timeAt 0) q).isPriceMet q = false :=
        Bool.eq_false_iff.mpr (by simpa using hp)
      have h0 : (o.recordPriceCheck (env.timeAt 0) q).getMaxFillableAmount q = 0 :=
        getMaxFillableAmount_eq_zero_of_not_priceMet _ _ hp'
      simp [hp', h0, LimitOrder.updateStatus]

/-- Concrete instance of `maxFillable_zero_and_ioc_never_partial`: a quote at
half the limit rate yields no fillable amount, and the IOC run of that order
does not end `PARTIALLY_FILLED`. -/
theorem maxFillable_zero_and_ioc_never_partial_witness :
    ((mkLimitOrder "w1" "USDC" "DAI" 100 2 0 TimeInForce.IOC "u" "k" 0).isPriceMet 100 = false
      ∧ (mkLimitOrder "w1" "USDC" "DAI" 100 2 0 TimeInForce.IOC "u" "k" 0).getMaxFillableAmount 100 = 0)
    ∧ (executeIOC
        { timeAt := fun _ => 0
          quoteAt := fun _ _ => Except.ok 100
          swapAt := fun _ => Except.ok "0xmock"
          liquidityCheckEnabled := true }
        (mkLimitOrder "w1" "USDC" "DAI" 100 2 0 TimeInForce.IOC "u" "k" 0)).1.status
      ≠ OrderStatus.PARTIALLY_FILLED :=
  ⟨⟨by norm_num [mkLimitOrder, LimitOrder.isPriceMet],
    maxFillable_zero_and_ioc_never_partial.1
      (mkLimitOrder "w1" "USDC" "DAI" 100 2 0 TimeInForce.IOC "u" "k" 0) 100
      (by norm_num [mkLimitOrder, LimitOrder.isPriceMet])⟩,
   maxFillable_zero_and_ioc_never_partial.2
     { timeAt := fun _ => 0
       quoteAt := fun _ _ => Except.ok 100
       swapAt := fun _ => Except.ok "0xmock"
       liquidityCheckEnabled := true }
     (mkLimitOrder "w1" "USDC" "DAI" 100 2 0 TimeInForce.IOC "u" "k" 0)⟩

/-- C2 counterexample: an order with a zero input amount — malformed per the
spec — is admitted by `addOrder` all the same: it is enqueued and its status
becomes `ACTIVE`. -/
theorem addOrder_admits_malformed_counterexample :
    (mkLimitOrder "bad" "USDC" "DAI" 0 1 0 TimeInForce.GTC "u" "k" 0).input_amount = 0
    ∧ (addOrder [] (mkLimitOrder "bad" "USDC" "DAI" 0 1 0 TimeInForce.GTC "u" "k" 0)).length = 1
    ∧ (addOrder [] (mkLimitOrder "bad" "USDC" "DAI" 0 1 0 TimeInForce.GTC "u" "k" 0)).head?
        = some ((mkLimitOrder "bad" "USDC" "DAI" 0 1 0 TimeInForce.GTC "u" "k" 0).updateStatus
            OrderStatus.ACTIVE "")
    ∧ ((mkLimitOrder "bad" "USDC" "DAI" 0 1 0 TimeInForce.GTC "u" "k" 0).updateStatus
        OrderStatus.ACTIVE "").status = OrderStatus.ACTIVE :=
  ⟨rfl, rfl, rfl, rfl⟩

/-- C2 amended: `addOrder` performs no validation at all — every order,
whatever its input amount, slippage or TIF, is enqueued exactly once with its
status set to `ACTIVE` and all its terms unchanged. -/
theorem addOrder_no_validation (orders : List LimitOrder) (o : LimitOrder) :
    (addOrder orders o).length = orders.length + 1
    ∧ (addOrder orders o).getLast? = some (o.updateStatus OrderStatus.ACTIVE "")
    ∧ (o.updateStatus OrderStatus.ACTIVE "").status = OrderStatus.ACTIVE
    ∧ (o.updateStatus OrderStatus.ACTIVE "").input_amount = o.input_amount
    ∧ (o.updateStatus OrderStatus.ACTIVE "").slippage_tolerance = o.slippage_tolerance
    ∧ (o.updateStatus OrderStatus.ACTIVE "").tif_policy = o.tif_policy := by
  refine ⟨by simp [addOrder], ?_, rfl, rfl, rfl, rfl⟩
  simp [addOrder]

/-- C3 counterexample: `updateStatus` moves a `FILLED` (terminal) order
straight to `CANCELED` — terminal states are not absorbing under
`updateStatus`. -/
theorem updateStatus_overwrites_terminal_counterexample :
    ({ mkLimitOrder "t3" "USDC" "DAI" 100 1 0 TimeInForce.GTC "u" "k" 0 with
        status := OrderStatus.FILLED } : LimitOrder).status.isTerminal = true
    ∧ (({ mkLimitOrder "t3" "USDC" "DAI" 100 1 0 TimeInForce.GTC "u" "k" 0 with
          status := OrderStatus.FILLED } : LimitOrder).updateStatus
        OrderStatus.CANCELED "").status = OrderStatus.CANCELED
    ∧ OrderStatus.CANCELED ≠ OrderStatus.FILLED :=
  ⟨rfl, rfl, by decide⟩

/-- C3 amended: `updateStatus` itself overwrites the status unconditionally
(no terminal-state guard), but the engine's per-order processing never
dispatches an order whose status is terminal: such an order is returned
unchanged with no settlement. -/
theorem terminal_order_not_dispatched :
    (∀ (o : LimitOrder) (s : OrderStatus) (r : String), (o.updateStatus s r).status = s)
    ∧ ∀ (env : Env) (o : LimitOrder) (fuel : ℕ),
        o.status.isTerminal = true → processOrder env o fuel = (o, []) := by
  refine ⟨fun _ _ _ => rfl, fun env o fuel h => ?_⟩
  have hne : decide (o.status = OrderStatus.ACTIVE) = false := by
    cases hs : o.status <;> simp_all [OrderStatus.isTerminal]
  simp [processOrder, LimitOrder.isExecutable, hne]

/-- Concrete instance of `terminal_order_not_dispatched`: a canceled order is
left untouched by order processing. -/
theorem terminal_order_not_dispatched_witness :
    ({ mkLimitOrder "t3w" "USDC" "DAI" 100 1 0 TimeInForce.GTC "u" "k" 0 with
        status := OrderStatus.CANCELED } : LimitOrder).status.isTerminal = true
    ∧ processOrder
        { timeAt := fun _ => 0
          quoteAt := fun _ _ => Except.ok 1000
          swapAt := fun _ => Except.ok "0xmock"
          liquidityCheckEnabled := true }
        ({ mkLimitOrder "t3w" "USDC" "DAI" 100 1 0 TimeInForce.GTC "u" "k" 0 with
            status := OrderStatus.CANCELED } : LimitOrder) 3
      = (({ mkLimitOrder "t3w" "USDC" "DAI" 100 1 0 TimeInForce.GTC "u" "k" 0 with
            status := OrderStatus.CANCELED } : LimitOrder), []) :=
  ⟨rfl,
   terminal_order_not_dispatched.2
     { timeAt := fun _ => 0
       quoteAt := fun _ _ => Except.ok 1000
       swapAt := fun _ => Except.ok "0xmock"
       liquidityCheckEnabled := true }
     ({ mkLimitOrder "t3w" "USDC" "DAI" 100 1 0 TimeInForce.GTC "u" "k" 0 with
         status := OrderStatus.CANCELED } : LimitOrder) 3 rfl⟩

/-- C8: a FOK order whose first quote misses the limit is canceled with the
kill reason (which mentions "killed"), its filled amount is untouched (so it
stays zero for a freshly admitted order), and no settlement is submitted. -/
theorem fok_price_not_met_kills (env : Env) (o : LimitOrder) (q : ℕ)
    (hq : env.quoteAt 0 o.input_amount = Except.ok q)
    (hp : o.isPriceMet q = false) :
    (executeFOK env o).1.status = OrderStatus.CANCELED
    ∧ (executeFOK env o).1.failure_reason = "FOK: Price not met, order killed"
    ∧ mentions "killed" (executeFOK env o).1.failure_reason
    ∧ (executeFOK env o).1.filled_amount = o.filled_amount
    ∧ (o.filled_amount = 0 → (executeFOK env o).1.filled_amount = 0)
    ∧ (executeFOK env o).2 = [] := by
  have hp1 : (o.recordPriceCheck (env.timeAt 0) q).isPriceMet q = false := by
    rw [isPriceMet_recordPriceCheck]; exact hp
  have hres : executeFOK env o
      = ((o.recordPriceCheck (env.timeAt 0) q).updateStatus OrderStatus.CANCELED
          "FOK: Price not met, order killed", []) := by
    unfold executeFOK
    rw [hq]
    simp [hp1]
  rw [hres]
  refine ⟨rfl, by simp [LimitOrder.updateStatus], ?_, rfl, fun h => h, rfl⟩
  exact ⟨"FOK: Price not met, order ".data, [], by simp [LimitOrder.updateStatus, mentions]⟩

/-- Concrete instance of `fok_price_not_met_kills`: a quote of 50 against a
limit requiring 100 kills the FOK order. -/
theorem fok_price_not_met_kills_witness :
    (mkLimitOrder "w8" "USDC" "DAI" 100 1 0 TimeInForce.FOK "u" "k" 0).isPriceMet 50 = false
    ∧ (executeFOK
        { timeAt := fun _ => 0
          quoteAt := fun _ _ => Except.ok 50
          swapAt := fun _ => Except.ok "0xmock"
          liquidityCheckEnabled := true }
        (mkLimitOrder "w8" "USDC" "DAI" 100 1 0 TimeInForce.FOK "u" "k" 0)).1.status
      = OrderStatus.CANCELED
    ∧ mentions "killed"
        (executeFOK
          { timeAt := fun _ => 0
            quoteAt := fun _ _ => Except.ok 50
            swapAt := fun _ => Except.ok "0xmock"
            liquidityCheckEnabled := true }
          (mkLimitOrder "w8" "USDC" "DAI" 100 1 0 TimeInForce.FOK "u" "k" 0)).1.failure_reason :=
  ⟨by norm_num [mkLimitOrder, LimitOrder.isPriceMet],
   (fok_price_not_met_kills
      { timeAt := fun _ => 0
        quoteAt := fun _ _ => Except.ok 50
        swapAt := fun _ => Except.ok "0xmock"
        liquidityCheckEnabled := true }
      (mkLimitOrder "w8" "USDC" "DAI" 100 1 0 TimeInForce.FOK "u" "k" 0) 50 rfl
      (by norm_num [mkLimitOrder, LimitOrder.isPriceMet])).1,
   (fok_price_not_met_kills
      { timeAt := fun _ => 0
        quoteAt := fun _ _ => Except.ok 50
        swapAt := fun _ => Except.ok "0xmock"
        liquidityCheckEnabled := true }
      (mkLimitOrder "w8" "USDC" "DAI" 100 1 0 TimeInForce.FOK "u" "k" 0) 50 rfl
      (by norm_num [mkLimitOrder, LimitOrder.isPriceMet])).2.2.1⟩

/-- A boolean `if` with a false condition takes the else branch. -/
theorem if_bool_false {α : Sort _} {c : Bool} (h : c = false) (a b : α) :
    (if c = true then a else b) = b := by simp [h]

/-- `updateStatus` does not touch `min_output_amount`. -/
theorem min_output_updateStatus (o : LimitOrder) (s : OrderStatus) (r : String) :
    (o.updateStatus s r).min_output_amount = o.min_output_amount := rfl

/-- `recordPriceCheck` does not touch `min_output_amount`. -/
theorem min_output_recordPriceCheck (o : LimitOrder) (t q : ℕ) :
    (o.recordPriceCheck t q).min_output_amount = o.min_output_amount := rfl

/-- `setExpiryTime` does not touch `min_output_amount`. -/
theorem min_output_setExpiryTime (o : LimitOrder) (t : ℕ) :
    (o.setExpiryTime t).min_output_amount = o.min_output_amount := by
  unfold LimitOrder.setExpiryTime
  split <;> rfl

/-- The GTC loop never writes `min_output_amount`. -/
theorem executeGTCAux_min_output (env : Env) :
    ∀ (fuel : ℕ) (o : LimitOrder) (c i : ℕ),
      (executeGTCAux env o c i fuel).1.min_output_amount = o.min_output_amount := by
  intro fuel
  induction fuel with
  | zero => intro o c i; rfl
  | succ f ih =>
    intro o c i
    unfold executeGTCAux
    split
    · cases env.quoteAt i o.input_amount with
      | error e => exact ih o c (i + 1)
      | ok q =>
        by_cases hp : (o.recordPriceCheck (env.timeAt i) q).isPriceMet q = true
        · simp only [hp, if_true]
          cases env.swapAt i with
          | error e => exact ih _ c (i + 1)
          | ok tx => rfl
        · have hp' : (o.recordPriceCheck (env.timeAt i) q).isPriceMet q = false :=
            Bool.eq_false_iff.mpr hp
          simp only [if_bool_false hp']
          exact ih _ (c + 1) (i + 1)
    · split <;> rfl

/-- The GTT loop never writes `min_output_amount`. -/
theorem executeGTTAux_min_output (env : Env) :
    ∀ (fuel : ℕ) (o : LimitOrder) (i : ℕ),
      (executeGTTAux env o i fuel).1.min_output_amount = o.min_output_amount := by
  intro fuel
  induction fuel with
  | zero => intro o i; rfl
  | succ f ih =>
    intro o i
    unfold executeGTTAux
    split
    · cases env.quoteAt i o.input_amount with
      | error e => exact ih o (i + 1)
      | ok q =>
        by_cases hp : (o.recordPriceCheck (env.timeAt i) q).isPriceMet q = true
        · simp only [hp, if_true]
          cases env.swapAt i with
          | error e => exact ih _ (i + 1)
          | ok tx => rfl
        · have hp' : (o.recordPriceCheck (env.timeAt i) q).isPriceMet q = false :=
            Bool.eq_false_iff.mpr hp
          simp only [if_bool_false hp']
          exact ih _ (i + 1)
    · split <;> rfl

/-- `executeIOC` never writes `min_output_amount`. -/
theorem executeIOC_min_output (env : Env) (o : LimitOrder) :
    (executeIOC env o).1.min_output_amount = o.min_output_amount := by
  unfold executeIOC
  cases env.quoteAt 0 o.input_amount with
  | error e => rfl
  | ok q =>
    by_cases hp : (o.recordPriceCheck (env.timeAt 0) q).isPriceMet q = true
    · simp only [hp, if_true]
      cases env.swapAt 0 <;> rfl
    · have hp' : (o.recordPriceCheck (env.timeAt 0) q).isPriceMet q = false :=
        Bool.eq_false_iff.mpr hp
      simp only [if_bool_false hp']
      split
      · cases env.quoteAt 0 ((o.recordPriceCheck (env.timeAt 0) q).getMaxFillableAmount q) with
        | error e => rfl
        | ok pq => cases env.swapAt 0 <;> rfl
      · rfl

/-- The FOK settlement tail never writes `min_output_amount`. -/
theorem fokSettle_min_output (env : Env) (o1 : LimitOrder) (q : ℕ) :
    (fokSettle env o1 q).1.min_output_amount = o1.min_output_amount := by
  unfold fokSettle
  cases env.swapAt 0 <;> rfl

/-- `executeFOK` never writes `min_output_amount`. -/
theorem executeFOK_min_output (env : Env) (o : LimitOrder) :
    (executeFOK env o).1.min_output_amount = o.min_output_amount := by
  unfold executeFOK
  cases env.quoteAt 0 o.input_amount with
  | error e => rfl
  | ok q =>
    simp only
    split
    · rfl
    · split
      · split
        · exact fokSettle_min_output env _ q
        · split
          · exact fokSettle_min_output env _ q
          · rfl
      · exact fokSettle_min_output env _ q

/-- C6: for positive input amount and positive limit price the constructor
stores `floor(input_amount * limit_price)` in `min_output_amount`, and no
later operation of the order or of the engine recomputes or changes it. -/
theorem min_output_amount_spec :
    (∀ (id ti tou : String) (amt : ℕ) (lim slip : ℚ) (tif : TimeInForce)
        (ua pk : String) (now : ℕ), 0 < amt → 0 < lim →
        ((mkLimitOrder id ti tou amt lim slip tif ua pk now).min_output_amount : ℤ)
          = ⌊(amt : ℚ) * lim⌋)
    ∧ (∀ (o : LimitOrder) (s : OrderStatus) (r : String),
        (o.updateStatus s r).min_output_amount = o.min_output_amount)
    ∧ (∀ (o : LimitOrder) (t q : ℕ),
        (o.recordPriceCheck t q).min_output_amount = o.min_output_amount)
    ∧ (∀ (o : LimitOrder) (t : ℕ),
        (o.setExpiryTime t).min_output_amount = o.min_output_amount)
    ∧ (∀ (env : Env) (o : LimitOrder) (fuel : ℕ),
        (executeGTC env o fuel).1.min_output_amount = o.min_output_amount
        ∧ (executeGTT env o fuel).1.min_output_amount = o.min_output_amount
        ∧ (executeIOC env o).1.min_output_amount = o.min_output_amount
        ∧ (executeFOK env o).1.min_output_amount = o.min_output_amount
        ∧ (processOrder env o fuel).1.min_output_amount = o.min_output_amount) := by
  refine ⟨?_, min_output_updateStatus, min_output_recordPriceCheck,
    min_output_setExpiryTime, fun env o fuel => ?_⟩
  · intro id ti tou amt lim slip tif ua pk now hamt hlim
    have hnn : (0 : ℚ) ≤ (amt : ℚ) * lim :=
      mul_nonneg (Nat.cast_nonneg amt) (le_of_lt hlim)
    exact Int.toNat_of_nonneg (Int.floor_nonneg.mpr hnn)
  · refine ⟨executeGTCAux_min_output env fuel o 0 0,
      executeGTTAux_min_output env fuel o 0,
      executeIOC_min_output env o,
      executeFOK_min_output env o, ?_⟩
    unfold processOrder
    split
    · rfl
    · cases o.tif_policy with
      | GTC => exact executeGTCAux_min_output env fuel o 0 0
      | GTT => exact executeGTTAux_min_output env fuel o 0
      | IOC => exact executeIOC_min_output env o
      | FOK => exact executeFOK_min_output env o

/-- Concrete instance of `min_output_amount_spec`: input 100 at limit price
3/2 stores 150. -/
theorem min_output_amount_spec_witness :
    0 < 100 ∧ (0 : ℚ) < 3 / 2
    ∧ ((mkLimitOrder "w6" "USDC" "DAI" 100 (3 / 2) 0 TimeInForce.GTC "u" "k" 0).min_output_amount : ℤ)
        = ⌊(100 : ℚ) * (3 / 2)⌋ :=
  ⟨by norm_num, by norm_num,
   min_output_amount_spec.1 "w6" "USDC" "DAI" 100 (3 / 2) 0 TimeInForce.GTC "u" "k" 0
     (by norm_num) (by norm_num)⟩

/-- Environment for exercising the GTT success path: never expired, every quote
returns 150, settlement succeeds. -/
def gttEnvC4 : Env :=
  { timeAt := fun _ => 10
    quoteAt := fun _ _ => Except.ok 150
    swapAt := fun _ => Except.ok "0xgtt"
    liquidityCheckEnabled := true }

/-- A freshly admitted GTT order: input 100, limit price 1, no slippage. -/
def gttOrderC4 : LimitOrder :=
  (mkLimitOrder "g4" "USDC" "DAI" 100 1 0 TimeInForce.GTT "u" "k" 0).updateStatus
    OrderStatus.ACTIVE ""

/-- The same order under GTC, for contrast. -/
def gtcOrderC4 : LimitOrder :=
  (mkLimitOrder "g4c" "USDC" "DAI" 100 1 0 TimeInForce.GTC "u" "k" 0).updateStatus
    OrderStatus.ACTIVE ""

/-- C4 (code bug): a GTT order whose first quote (150 against a required
100) meets the limit before expiry is marked `FILLED` with
`filled_amount = input_amount` and the quote recorded, yet `received_amount`
stays 0 — the strategy is not identical to GTC, which records the quoted
output 150 as `received_amount` on the same success exit. -/
theorem gtt_fill_omits_received_amount :
    (executeGTT gttEnvC4 gttOrderC4 1).1.status = OrderStatus.FILLED
    ∧ (executeGTT gttEnvC4 gttOrderC4 1).1.filled_amount = 100
    ∧ (executeGTT gttEnvC4 gttOrderC4 1).1.last_quoted_output = 150
    ∧ (executeGTT gttEnvC4 gttOrderC4 1).1.received_amount = 0
    ∧ (executeGTC gttEnvC4 gtcOrderC4 1).1.received_amount = 150 := by
  norm_num [executeGTT, executeGTTAux, executeGTC, executeGTCAux, gttEnvC4,
    gttOrderC4, gtcOrderC4, mkLimitOrder, LimitOrder.updateStatus,
    LimitOrder.isExecutable, LimitOrder.isExpired, LimitOrder.recordPriceCheck,
    LimitOrder.isPriceMet, LimitOrder.getMinOutputWithSlippage]
  decide
